import Mathlib

/-!
# Verification of `scripts/update_models.py`

A shallow embedding of the documentation-generation script
`scripts/update_models.py`: it fetches a model list and a pricing list
(two JSON endpoints), joins them by model identifier, derives display
fields (provider label, price labels), sorts, and renders a Markdown
table inside a fixed document template.

Modelling conventions:
* Python floats coming from the JSON payloads are embedded as exact
  rationals (`ℚ`).  All numeric values that actually occur in the data
  (decimal literals) are exactly representable, and on such values the
  comparisons and the fixed-point formatting below agree with the
  Python semantics.
* Python dicts used as records become structures with `Option` fields;
  `dict.get(key, default)` becomes `Option.getD`.
* The two network fetches and the final file write are modelled by an
  `Except`-valued pipeline together with an explicit "previous file
  content" state (`Option String`).
-/

namespace UpdateModels

/-- `BASE_UNIT = 2.0`: ratio 1.0 = $2 per million tokens. -/
def BASE_UNIT : ℚ := 2

/-- `PROVIDER_MAP`: insertion-ordered dict mapping model-id prefixes to
provider names; Python dict iteration preserves this declaration order. -/
def PROVIDER_MAP : List (String × String) :=
  [("gemini", "Google"),
   ("google/", "Google"),
   ("deepseek-ai/", "DeepSeek"),
   ("meta-llama/", "Meta"),
   ("Qwen/", "Qwen"),
   ("mistralai/", "Mistral"),
   ("moonshotai/", "Moonshot"),
   ("openai/", "OpenAI"),
   ("gpt-", "OpenAI"),
   ("black-forest-labs/", "Black Forest Labs"),
   ("x-ai/", "xAI"),
   ("openrouter/", "OpenRouter"),
   ("zai-org/", "Zhipu AI"),
   ("whisper-", "OpenAI")]

/-- `CATEGORY_MAP`: endpoint-type tag to category label. -/
def CATEGORY_MAP : List (String × String) :=
  [("openai", "Chat"),
   ("gemini", "Chat"),
   ("image-generation", "Image")]

/-- Embeds Python's `str.startswith`: character-wise prefix test. -/
def pyStartswith (s pre : String) : Bool :=
  pre.data.isPrefixOf s.data

/-- Embeds `s.replace("-", " ")` for the single-character pattern used in
the script: replace every `'-'` character by `' '`. -/
def replaceDash (s : String) : String :=
  String.mk (s.data.map (fun c => if c = '-' then ' ' else c))

/-- Character-list worker for `str.title`: the boolean records whether the
previous character was a letter (Python: a cased character). -/
def pyTitleAux : List Char → Bool → List Char
  | [], _ => []
  | c :: rest, prevAlpha =>
    if c.isAlpha then
      (if prevAlpha then c.toLower else c.toUpper) :: pyTitleAux rest true
    else
      c :: pyTitleAux rest false

/-- Embeds Python's `str.title()` on ASCII strings: the first letter of
each maximal run of letters is uppercased, the rest lowercased. -/
def pyTitle (s : String) : String :=
  String.mk (pyTitleAux s.data false)

/-- The `for prefix, provider in PROVIDER_MAP.items()` loop of
`detect_provider`: return the label of the first pair whose prefix the
model id starts with. -/
def providerScan (model_id : String) : List (String × String) → Option String
  | [] => none
  | kv :: rest =>
    if pyStartswith model_id kv.1 then some kv.2 else providerScan model_id rest

/-- `detect_provider(model_id, owned_by)` from the source. -/
def detect_provider (model_id owned_by : String) : String :=
  match providerScan model_id PROVIDER_MAP with
  | some provider => provider
  | none =>
    if owned_by = "vertex-ai" then "Google"
    else if owned_by = "openai" then "OpenAI"
    else pyTitle (replaceDash owned_by)

/-- `CATEGORY_MAP.get(ep, ep.replace("-", " ").title())`. -/
def categoryLabel (ep : String) : String :=
  match CATEGORY_MAP.find? (fun kv => kv.1 = ep) with
  | some kv => kv.2
  | none => pyTitle (replaceDash ep)

/-- `detect_category(endpoint_types)` from the source: map each tag to a
label, append it if not already collected, join with `", "`. -/
def detect_category (endpoint_types : List String) : String :=
  String.intercalate ", "
    (endpoint_types.foldl
      (fun categories ep =>
        let cat := categoryLabel ep
        if cat ∈ categories then categories else categories ++ [cat])
      [])

/-- Count of factors `p` in `n` (first argument is fuel). -/
def factorCount (p : Nat) : Nat → Nat → Nat
  | 0, _ => 0
  | fuel + 1, n =>
    if n % p = 0 ∧ n ≠ 0 then factorCount p fuel (n / p) + 1 else 0

/-- Floor of a rational as an integer, via flooring integer division. -/
def ratFloor (q : ℚ) : Int :=
  Int.fdiv q.num (q.den : Int)

/-- Round a rational to the nearest integer, ties to even — the rounding
Python's fixed-point float formatting applies to the (exact) value. -/
def roundHalfEven (q : ℚ) : Int :=
  let fl := ratFloor q
  let frac := q - (fl : ℚ)
  if frac < 1/2 then fl
  else if 1/2 < frac then fl + 1
  else if fl % 2 = 0 then fl else fl + 1

/-- Left-pad a digit string with zeros to length `n`. -/
def zeroPad (n : Nat) (s : String) : String :=
  String.mk (List.replicate (n - s.length) '0') ++ s

/-- Embeds Python's fixed-point formatting `f"{q:.nf}"` on the exact
value: round to `n` decimal places (ties to even) and print with exactly
`n` digits after the decimal point. -/
def formatFixed (q : ℚ) (n : Nat) : String :=
  let scaled := roundHalfEven (q * (10 : ℚ) ^ n)
  let sign := if scaled < 0 then "-" else ""
  let a := scaled.natAbs
  if n = 0 then sign ++ toString a
  else sign ++ toString (a / 10 ^ n) ++ "." ++ zeroPad n (toString (a % 10 ^ n))

/-- `format_price(value)` from the source.  The Python literal `0.01` is
embedded as `1/100`: on every float input the comparison `value < 0.01`
agrees with `value < 1/100`, since no double lies between `1/100` and
the closest double to `0.01`. -/
def format_price (value : ℚ) : String :=
  if value = 0 then "Free"
  else if value < 1/100 then "$" ++ formatFixed value 4
  else if value ≥ 1 then "$" ++ formatFixed value 2
  else "$" ++ formatFixed value 2

/-- Shortest exponent `n` with `q * 10^n` integral (for decimal `q`). -/
def decExp (d : Nat) : Nat :=
  max (factorCount 2 d d) (factorCount 5 d d)

/-- Decimal rendering of a rational, used to embed the f-string
interpolation `f"${price}/req"`.  A JSON decimal literal decodes to a
Python number whose `str()` is its shortest decimal form, which for the
exact rational value is the minimal-exponent expansion printed here
(the int/float distinction and scientific notation for extreme
magnitudes are outside the range modelled). -/
def decimalStr (q : ℚ) : String :=
  let n := decExp q.den
  let sign := if q.num < 0 then "-" else ""
  let a := q.num.natAbs * 10 ^ n / q.den
  if n = 0 then sign ++ toString a
  else sign ++ toString (a / 10 ^ n) ++ "." ++ zeroPad n (toString (a % 10 ^ n))

/-- One entry of the model-list endpoint's `data` array; only `id` and
`owned_by` are read by the script. -/
structure ModelRecord where
  id : String
  owned_by : String
deriving DecidableEq, Repr

/-- One entry of the pricing endpoint's `data` array.  `model_name` is
accessed unconditionally; the remaining fields are read with
`dict.get(key, default)` and so are optional. -/
structure PricingRecord where
  model_name : String
  quota_type : Option Int := none
  model_ratio : Option ℚ := none
  completion_ratio : Option ℚ := none
  model_price : Option ℚ := none
deriving DecidableEq, Repr

/-- The pricing lookup built by `pricing[p["model_name"]] = p`: a later
entry with the same `model_name` overwrites an earlier one, and a missing
key yields `none` (the loop body's `pricing.get(model_id, {})`). -/
def pricingIndex (ps : List PricingRecord) (k : String) : Option PricingRecord :=
  ps.foldl (fun acc p => if p.model_name = k then some p else acc) none

/-- One rendered table row before string assembly. -/
structure DisplayRow where
  id : String
  provider : String
  input : String
  output : String
deriving DecidableEq, Repr

/-- The loop body of `main`: build the display row of one model from the
pricing lookup — `p.get("quota_type", 0)` selects fixed per-request
pricing when it equals 1, token-ratio pricing otherwise. -/
def buildRow (ps : List PricingRecord) (m : ModelRecord) : DisplayRow :=
  let provider := detect_provider m.id m.owned_by
  let p := pricingIndex ps m.id
  let qt : Int := match p with | none => 0 | some r => r.quota_type.getD 0
  if qt = 1 then
    let price : ℚ := match p with | none => 0 | some r => r.model_price.getD 0
    { id := m.id, provider := provider,
      input := if 0 < price then "$" ++ decimalStr price ++ "/req" else "Free",
      output := "-" }
  else
    let ratio : ℚ := match p with | none => 0 | some r => r.model_ratio.getD 0
    let comp : ℚ := match p with | none => 1 | some r => r.completion_ratio.getD 1
    { id := m.id, provider := provider,
      input := format_price (ratio * BASE_UNIT),
      output := format_price (ratio * comp * BASE_UNIT) }

/-- `f"| \x60{model_id}\x60 | {provider} | {input_str} | {output_str} |"`. -/
def renderRow (r : DisplayRow) : String :=
  "| `" ++ r.id ++ "` | " ++ r.provider ++ " | " ++ r.input ++ " | " ++ r.output ++ " |"

/-- The sort key `lambda m: (detect_provider(m["id"], m["owned_by"]), m["id"])`;
Python compares such tuples lexicographically. -/
def modelKey (m : ModelRecord) : String ×ₗ String :=
  toLex (detect_provider m.id m.owned_by, m.id)

/-- Boolean comparison used for sorting. -/
def modelLe (a b : ModelRecord) : Bool :=
  decide (modelKey a ≤ modelKey b)

/-- `models.sort(key=...)`: stable sort ascending by the derived key. -/
def sortedModels (ms : List ModelRecord) : List ModelRecord :=
  ms.mergeSort modelLe

/-- Body of the model-list endpoint's JSON response (`data` array). -/
structure ModelsResponse where
  data : List ModelRecord
deriving DecidableEq

/-- Body of the pricing endpoint's JSON response (`data` array). -/
structure PricingResponse where
  data : List PricingRecord
deriving DecidableEq

/-- The list of display rows `main` renders, in final table order. -/
def mainRows (mres : ModelsResponse) (pres : PricingResponse) : List DisplayRow :=
  (sortedModels mres.data).map (buildRow pres.data)

/-- `table = "\n".join(rows)`. -/
def tableStr (mres : ModelsResponse) (pres : PricingResponse) : String :=
  String.intercalate "\n" ((mainRows mres pres).map renderRow)

/-- The full document `content` assembled by `main` (f-string template
with the model count and the table substituted in). -/
def contentOf (mres : ModelsResponse) (pres : PricingResponse) : String :=
  "---\ntitle: \"Supported AI Models\"\ndescription: \"List of AI models available through IoTeX AI Gateway\"\n---\n\nIoTeX AI Gateway provides access to models from multiple leading AI providers. The model list is updated regularly as new models become available.\n\n## Available Models ("
  ++ toString (sortedModels mres.data).length
  ++ " models)\n\nPrices are per 1M tokens.\n\n| Model | Provider | Input | Output |\n|-------|----------|------:|-------:|\n"
  ++ tableStr mres pres
  ++ "\n\n<Note>\nThis list may not reflect the latest additions. Call the `/v1/models` endpoint for the most up-to-date list.\n</Note>\n\n## Query Models Programmatically\n\n```bash\ncurl https://gateway.iotex.ai/v1/models\n```\n"

/-- The error taxonomy of the run: a failed HTTP request or a JSON body
that does not decode.  Neither is caught anywhere in the script. -/
inductive FetchError where
  | network : String → FetchError
  | decode : String → FetchError
deriving DecidableEq

/-- The run from the two fetch results onward: any fetch/decode failure
propagates uncaught; on success the fully assembled document is the
value to be written. -/
def runPipeline (mres : Except FetchError ModelsResponse)
    (pres : Except FetchError PricingResponse) : Except FetchError String := do
  let m ← mres
  let p ← pres
  pure (contentOf m p)

/-- The output file after a run: `OUTPUT.write_text(content)` happens
exactly when the pipeline succeeds, overwriting in full; on failure the
previous content (if any) is untouched. -/
def finalOutput (prev : Option String) (mres : Except FetchError ModelsResponse)
    (pres : Except FetchError PricingResponse) : Option String :=
  match runPipeline mres pres with
  | .ok c => some c
  | .error _ => prev

/-- Deduplication keeping the first occurrence of each label, as the
spec describes it (map all tags first, then deduplicate). -/
def dedupFirst (l : List String) : List String :=
  l.foldl (fun acc c => if c ∈ acc then acc else acc ++ [c]) []

/-- The model record of the spec's end-to-end scenario. -/
def gpt4oModel : ModelRecord := { id := "gpt-4o", owned_by := "openai" }

/-- The pricing record of the spec's end-to-end scenario. -/
def gpt4oPricing : PricingRecord :=
  { model_name := "gpt-4o", quota_type := some 0,
    model_ratio := some 1, completion_ratio := some 2 }

/-- Sample model with fixed per-request pricing. -/
def perReqModel : ModelRecord := { id := "img-model", owned_by := "acme" }

/-- Sample pricing record with `quota_type 1` and `model_price 0.1`. -/
def perReqPricing : PricingRecord :=
  { model_name := "img-model", quota_type := some 1, model_price := some (1/10) }

/-- Sample model for an undocumented quota type. -/
def quota2Model : ModelRecord := { id := "m2", owned_by := "acme" }

/-- Sample pricing record with `quota_type 2` (neither 0 nor 1). -/
def quota2Pricing : PricingRecord :=
  { model_name := "m2", quota_type := some 2,
    model_ratio := some 1, completion_ratio := some 3 }

/-- Sample model for a negative quota type. -/
def negQuotaModel : ModelRecord := { id := "m3", owned_by := "acme" }

/-- Sample pricing record with `quota_type -1`. -/
def negQuotaPricing : PricingRecord :=
  { model_name := "m3", quota_type := some (-1),
    model_ratio := some 1, completion_ratio := some 3 }

/-! ## Helper lemmas -/

/-- The scan of `PROVIDER_MAP` is `find?` of the first matching prefix. -/
theorem providerScan_eq_find (mid : String) (l : List (String × String)) :
    providerScan mid l = (l.find? (fun kv => pyStartswith mid kv.1)).map Prod.snd := by
  induction l with
  | nil => rfl
  | cons kv rest ih =>
    cases hkv : pyStartswith mid kv.1 with
    | true => simp [providerScan, hkv, List.find?]
    | false => simp [providerScan, hkv, List.find?, ih]

/-- The row a model gets when its pricing record (if any) has a quota
type other than 1: token-ratio pricing. -/
theorem buildRow_quota_ne_one (ps : List PricingRecord) (m : ModelRecord) (r : PricingRecord)
    (h : pricingIndex ps m.id = some r) (hq : r.quota_type.getD 0 ≠ 1) :
    buildRow ps m =
      { id := m.id, provider := detect_provider m.id m.owned_by,
        input := format_price (r.model_ratio.getD 0 * BASE_UNIT),
        output := format_price (r.model_ratio.getD 0 * r.completion_ratio.getD 1 * BASE_UNIT) } := by
  unfold buildRow
  rw [h]
  simp only [if_neg hq]

/-- The row a model gets when its pricing record has quota type 1:
fixed per-request pricing. -/
theorem buildRow_quota_one (ps : List PricingRecord) (m : ModelRecord) (r : PricingRecord)
    (h : pricingIndex ps m.id = some r) (hq : r.quota_type.getD 0 = 1) :
    buildRow ps m =
      { id := m.id, provider := detect_provider m.id m.owned_by,
        input := if 0 < r.model_price.getD 0
          then "$" ++ decimalStr (r.model_price.getD 0) ++ "/req" else "Free",
        output := "-" } := by
  unfold buildRow
  rw [h]
  simp only [hq, if_true]

/-- Zero is formatted as "Free". -/
theorem format_price_zero : format_price 0 = "Free" := by
  unfold format_price
  simp

/-- The row a model gets when it has no pricing record at all. -/
theorem buildRow_no_pricing (ps : List PricingRecord) (m : ModelRecord)
    (h : pricingIndex ps m.id = none) :
    buildRow ps m =
      { id := m.id, provider := detect_provider m.id m.owned_by,
        input := "Free", output := "Free" } := by
  unfold buildRow
  rw [h]
  simp only [if_neg (by decide : (0 : Int) ≠ 1)]
  rw [show ((0 : ℚ) * BASE_UNIT) = 0 by ring, show ((0 : ℚ) * 1 * BASE_UNIT) = 0 by ring,
    format_price_zero]

/-- A built row keeps the model identifier. -/
theorem buildRow_id (ps : List PricingRecord) (m : ModelRecord) :
    (buildRow ps m).id = m.id := by
  simp only [buildRow]
  split <;> rfl

/-- A built row carries the derived provider label. -/
theorem buildRow_provider (ps : List PricingRecord) (m : ModelRecord) :
    (buildRow ps m).provider = detect_provider m.id m.owned_by := by
  simp only [buildRow]
  split <;> rfl

/-- The sort comparison is transitive. -/
theorem modelLe_trans : ∀ a b c : ModelRecord, modelLe a b → modelLe b c → modelLe a c := by
  intro a b c h1 h2
  simp only [modelLe, decide_eq_true_eq] at *
  exact le_trans h1 h2

/-- The sort comparison is total. -/
theorem modelLe_total : ∀ a b : ModelRecord, modelLe a b || modelLe b a := by
  intro a b
  simp only [modelLe, Bool.or_eq_true, decide_eq_true_eq]
  exact le_total _ _

/-! ## Claim theorems -/

/-- C1: the rendered table has exactly one row per entry of the
model-list `data` array — the row list has the same length, and is a
permutation of the rows built from the entries themselves (so no row is
dropped or added, including models with no pricing record). -/
theorem claim1_one_row_per_model (mres : ModelsResponse) (pres : PricingResponse) :
    (mainRows mres pres).length = mres.data.length ∧
    (mainRows mres pres).Perm (mres.data.map (buildRow pres.data)) := by
  constructor
  · simp [mainRows, sortedModels]
  · exact (List.mergeSort_perm mres.data modelLe).map _

/-- C2: under quota type 0 the input label is
`format_price(model_ratio * BASE_UNIT)` and the output label is
`format_price(model_ratio * completion_ratio * BASE_UNIT)`; a model with
no pricing record renders "Free"/"Free"; and the spec's gpt-4o scenario
renders its exact row. -/
theorem claim2_token_pricing_row :
    (∀ (ps : List PricingRecord) (m : ModelRecord) (r : PricingRecord),
      pricingIndex ps m.id = some r → r.quota_type.getD 0 = 0 →
      (buildRow ps m).input = format_price (r.model_ratio.getD 0 * BASE_UNIT) ∧
      (buildRow ps m).output
        = format_price (r.model_ratio.getD 0 * r.completion_ratio.getD 1 * BASE_UNIT)) ∧
    (∀ (ps : List PricingRecord) (m : ModelRecord),
      pricingIndex ps m.id = none →
      (buildRow ps m).input = "Free" ∧ (buildRow ps m).output = "Free") ∧
    renderRow (buildRow [gpt4oPricing] gpt4oModel)
      = "| `gpt-4o` | OpenAI | $2.00 | $4.00 |" := by
  refine ⟨?_, ?_, ?_⟩
  · intro ps m r h hq
    rw [buildRow_quota_ne_one ps m r h (by simp [hq])]
    exact ⟨rfl, rfl⟩
  · intro ps m h
    rw [buildRow_no_pricing ps m h]
    exact ⟨rfl, rfl⟩
  · with_unfolding_all decide

/-- Witness for C2: the gpt-4o scenario instantiates the quota-type-0
conjunct, and an empty pricing list instantiates the no-record conjunct. -/
theorem claim2_token_pricing_row_witness :
    ((buildRow [gpt4oPricing] gpt4oModel).input
      = format_price (gpt4oPricing.model_ratio.getD 0 * BASE_UNIT)) ∧
    (buildRow ([] : List PricingRecord) gpt4oModel).input = "Free" :=
  ⟨(claim2_token_pricing_row.1 [gpt4oPricing] gpt4oModel gpt4oPricing
      (by with_unfolding_all decide) (by decide)).1,
   (claim2_token_pricing_row.2.1 [] gpt4oModel rfl).1⟩

/-- C3: under quota type 1 the input label is "$<model_price>/req" when
the model price is positive and "Free" otherwise, and the output label
is "-". -/
theorem claim3_per_request_row (ps : List PricingRecord) (m : ModelRecord) (r : PricingRecord)
    (h : pricingIndex ps m.id = some r) (hq : r.quota_type.getD 0 = 1) :
    (buildRow ps m).input
      = (if 0 < r.model_price.getD 0
          then "$" ++ decimalStr (r.model_price.getD 0) ++ "/req" else "Free") ∧
    (buildRow ps m).output = "-" := by
  rw [buildRow_quota_one ps m r h hq]
  exact ⟨rfl, rfl⟩

/-- Witness for C3: a record with quota type 1 and model price 0.1. -/
theorem claim3_per_request_row_witness :
    ((buildRow [perReqPricing] perReqModel).input
      = (if 0 < perReqPricing.model_price.getD 0
          then "$" ++ decimalStr (perReqPricing.model_price.getD 0) ++ "/req" else "Free")) ∧
    (buildRow [perReqPricing] perReqModel).output = "-" :=
  claim3_per_request_row [perReqPricing] perReqModel perReqPricing
    (by with_unfolding_all decide) (by decide)

/-- C4: `format_price` maps 0 to "Free", values strictly between 0 and
0.01 to a four-decimal dollar string, values at least 0.01 to a
two-decimal dollar string, and the spec's four examples hold. -/
theorem claim4_format_price :
    format_price 0 = "Free" ∧
    (∀ v : ℚ, 0 < v → v < 1/100 → format_price v = "$" ++ formatFixed v 4) ∧
    (∀ v : ℚ, 1/100 ≤ v → format_price v = "$" ++ formatFixed v 2) ∧
    format_price (1/200) = "$0.0050" ∧
    format_price (1/100) = "$0.01" ∧
    format_price (5/2) = "$2.50" := by
  refine ⟨format_price_zero, ?_, ?_, ?_, ?_, ?_⟩
  · intro v h0 h1
    unfold format_price
    rw [if_neg h0.ne', if_pos h1]
  · intro v h
    have h0 : (0 : ℚ) < v := lt_of_lt_of_le (by norm_num) h
    unfold format_price
    rw [if_neg h0.ne', if_neg (not_lt.mpr h)]
    split <;> rfl
  · with_unfolding_all decide
  · with_unfolding_all decide
  · with_unfolding_all decide

/-- Witness for C4: the bounded conjuncts instantiated at 0.005 and 2.5. -/
theorem claim4_format_price_witness :
    format_price (1/200 : ℚ) = "$" ++ formatFixed (1/200) 4 ∧
    format_price (5/2 : ℚ) = "$" ++ formatFixed (5/2) 2 :=
  ⟨claim4_format_price.2.1 (1/200) (by norm_num) (by norm_num),
   claim4_format_price.2.2.1 (5/2) (by norm_num)⟩

/-- C5: `detect_provider` returns the label of the first pair of
`PROVIDER_MAP` whose prefix the model id starts with; with no match it
falls back on the owning organization ("vertex-ai" to "Google", "openai"
to "OpenAI", otherwise hyphens-to-spaces title case); and the spec's two
examples hold. -/
theorem claim5_detect_provider :
    (∀ (mid ob : String) (pr : String × String),
      PROVIDER_MAP.find? (fun kv => pyStartswith mid kv.1) = some pr →
      detect_provider mid ob = pr.2) ∧
    (∀ mid ob : String,
      PROVIDER_MAP.find? (fun kv => pyStartswith mid kv.1) = none →
      detect_provider mid ob =
        if ob = "vertex-ai" then "Google"
        else if ob = "openai" then "OpenAI"
        else pyTitle (replaceDash ob)) ∧
    detect_provider "gpt-4o" "openai" = "OpenAI" ∧
    detect_provider "unknown-model" "some-org" = "Some Org" := by
  refine ⟨?_, ?_, by decide, by decide⟩
  · intro mid ob pr h
    unfold detect_provider
    rw [providerScan_eq_find, h]
    rfl
  · intro mid ob h
    unfold detect_provider
    rw [providerScan_eq_find, h]
    rfl

/-- Witness for C5: the prefix rule at "gpt-4o" and the fallback rule at
an unmapped id owned by "vertex-ai". -/
theorem claim5_detect_provider_witness :
    detect_provider "gpt-4o" "acme" = "OpenAI" ∧
    detect_provider "zzz" "vertex-ai" = "Google" :=
  ⟨claim5_detect_provider.1 "gpt-4o" "acme" ("gpt-", "OpenAI") (by decide),
   (claim5_detect_provider.2.1 "zzz" "vertex-ai" (by decide)).trans (by decide)⟩

/-- C6: `detect_category` maps each tag in order through the lookup
(absent tags are hyphens-to-spaces title-cased), deduplicates keeping
first occurrences, joins with ", ", and satisfies the spec's examples. -/
theorem claim6_detect_category :
    (∀ endpoint_types : List String,
      detect_category endpoint_types
        = String.intercalate ", " (dedupFirst (endpoint_types.map categoryLabel))) ∧
    (∀ ep : String,
      CATEGORY_MAP.find? (fun kv => kv.1 = ep) = none →
      categoryLabel ep = pyTitle (replaceDash ep)) ∧
    detect_category ["openai", "image-generation"] = "Chat, Image" ∧
    detect_category [] = "" := by
  refine ⟨?_, ?_, by decide, rfl⟩
  · intro endpoint_types
    unfold detect_category dedupFirst
    rw [List.foldl_map]
  · intro ep h
    unfold categoryLabel
    rw [h]

/-- Witness for C6: instantiated at the spec's example list and at a tag
absent from the lookup. -/
theorem claim6_detect_category_witness :
    detect_category ["openai", "image-generation"]
      = String.intercalate ", " (dedupFirst (["openai", "image-generation"].map categoryLabel)) ∧
    categoryLabel "audio-speech" = pyTitle (replaceDash "audio-speech") :=
  ⟨claim6_detect_category.1 ["openai", "image-generation"],
   claim6_detect_category.2.1 "audio-speech" (by decide)⟩

/-- C7: in the rendered table, rows are in ascending lexical order of
provider label, and rows with equal provider labels are in ascending
lexical order of model identifier. -/
theorem claim7_table_sorted (mres : ModelsResponse) (pres : PricingResponse) :
    (mainRows mres pres).Pairwise (fun a b =>
      (a.provider ≠ b.provider → a.provider < b.provider) ∧
      (a.provider = b.provider → a.id ≤ b.id)) := by
  unfold mainRows
  rw [List.pairwise_map]
  have hs : (sortedModels mres.data).Pairwise (fun a b => modelLe a b) :=
    List.sorted_mergeSort modelLe_trans modelLe_total mres.data
  refine hs.imp ?_
  intro a b hab
  have hk : modelKey a ≤ modelKey b := by simpa [modelLe] using hab
  rw [modelKey, modelKey, Prod.Lex.le_iff] at hk
  rw [buildRow_provider, buildRow_provider, buildRow_id, buildRow_id]
  constructor
  · intro hne
    rcases hk with h | ⟨he, _⟩
    · exact h
    · exact absurd he hne
  · intro he
    rcases hk with h | ⟨_, hle⟩
    · rw [he] at h; exact absurd h (lt_irrefl _)
    · exact hle

/-- C8: a failed fetch or decode of either endpoint propagates uncaught
and leaves the previous output file unchanged; the file is written only
on success, and then it holds exactly the fully assembled document. -/
theorem claim8_failure_aborts :
    (∀ (e : FetchError) (pres : Except FetchError PricingResponse) (prev : Option String),
      runPipeline (.error e) pres = .error e ∧ finalOutput prev (.error e) pres = prev) ∧
    (∀ (m : ModelsResponse) (e : FetchError) (prev : Option String),
      runPipeline (.ok m) (.error e) = .error e ∧ finalOutput prev (.ok m) (.error e) = prev) ∧
    (∀ (m : ModelsResponse) (p : PricingResponse) (prev : Option String),
      finalOutput prev (.ok m) (.ok p) = some (contentOf m p)) :=
  ⟨fun _ _ _ => ⟨rfl, rfl⟩, fun _ _ _ => ⟨rfl, rfl⟩, fun _ _ _ => rfl⟩

/-- C9: the pipeline is deterministic in the two upstream responses —
the written content does not depend on the previous file state, and a
second run over the same responses reproduces the file byte for byte. -/
theorem claim9_deterministic :
    (∀ (m : ModelsResponse) (p : PricingResponse) (prev prev' : Option String),
      finalOutput prev (.ok m) (.ok p) = finalOutput prev' (.ok m) (.ok p)) ∧
    (∀ (m : ModelsResponse) (p : PricingResponse) (prev : Option String),
      finalOutput (finalOutput prev (.ok m) (.ok p)) (.ok m) (.ok p)
        = finalOutput prev (.ok m) (.ok p)) :=
  ⟨fun _ _ _ _ => rfl, fun _ _ _ => rfl⟩

/-- C10: any quota type other than 1 (not only 0) selects token-ratio
pricing: the input label is `format_price(model_ratio * BASE_UNIT)` and
the output label is
`format_price(model_ratio * completion_ratio * BASE_UNIT)`. -/
theorem claim10_non_one_quota_is_token_priced (ps : List PricingRecord) (m : ModelRecord)
    (r : PricingRecord) (h : pricingIndex ps m.id = some r)
    (hq : r.quota_type.getD 0 ≠ 1) :
    (buildRow ps m).input = format_price (r.model_ratio.getD 0 * BASE_UNIT) ∧
    (buildRow ps m).output
      = format_price (r.model_ratio.getD 0 * r.completion_ratio.getD 1 * BASE_UNIT) := by
  rw [buildRow_quota_ne_one ps m r h hq]
  exact ⟨rfl, rfl⟩

/-- Witness for C10: records with quota types 2 and -1 both take the
token-ratio branch. -/
theorem claim10_non_one_quota_is_token_priced_witness :
    (buildRow [quota2Pricing] quota2Model).input
      = format_price (quota2Pricing.model_ratio.getD 0 * BASE_UNIT) ∧
    (buildRow [negQuotaPricing] negQuotaModel).input
      = format_price (negQuotaPricing.model_ratio.getD 0 * BASE_UNIT) :=
  ⟨(claim10_non_one_quota_is_token_priced [quota2Pricing] quota2Model quota2Pricing
      (by with_unfolding_all decide) (by decide)).1,
   (claim10_non_one_quota_is_token_priced [negQuotaPricing] negQuotaModel negQuotaPricing
      (by with_unfolding_all decide) (by decide)).1⟩

end UpdateModels
